import Mathlib

/-!
Shallow embedding of `src/sixty_seven_detector.py` (the `main` loop and the
module constants), over exact rational arithmetic.  Each tick of the host
loop is modelled by `SixtySeven.tick`, which composes the code's blocks in
source order: hand-seen bookkeeping and grace-window stabilisation
(lines 338-347), the motion/reversal classifier (lines 359-388), the idle
timeout reset (lines 390-410), the delayed popup activation (lines 462-468),
the periodic popup shuffle (lines 470-482) and the manual music-toggle key
handler (lines 488-500).  Wall-clock time is sampled once per tick (`now`);
the code's second `time.time()` reads inside a tick (lines 381, 498) are
identified with that tick's `now`.
-/

set_option maxRecDepth 200000

namespace SixtySeven

/-- Movement direction, the code's `"up"` / `"down"` strings. -/
inductive Dir where
  | up
  | down
deriving DecidableEq

/-- Key pressed during a tick, as read at line 486; only `m` is relevant to
the modelled state (`q` merely exits the loop). -/
inductive Key where
  | noKey
  | keyM
deriving DecidableEq

/-- Tunable constants of the module (lines 10-30) together with the two
startup facts the loop branches on: whether `load_music` succeeded
(line 283) and how many popup gif sequences `load_popup_gifs` returned
(line 285). -/
structure Config where
  movement_threshold : ℚ
  direction_change_target : ℕ
  no_motion_timeout : ℚ
  hand_lost_grace : ℚ
  popup_delay_seconds : ℚ
  popup_shuffle_interval : ℚ
  popup_num_windows : ℕ
  music_loaded : Bool
  num_popup_gifs : ℕ
deriving DecidableEq

/-- The default constants of the source file. -/
def defaultConfig (loaded : Bool) (gifs : ℕ) : Config :=
  { movement_threshold := 0.0025
    direction_change_target := 4
    no_motion_timeout := 0.5
    hand_lost_grace := 1.5
    popup_delay_seconds := 5.0
    popup_shuffle_interval := 0.1
    popup_num_windows := 20
    music_loaded := loaded
    num_popup_gifs := gifs }

/-- Loop-carried state of `main` (lines 303-320).  `music_busy` models
`pygame.mixer.music.get_busy()`: `start_music` makes it true, `stop_music`
makes it false.  `popup_windows` is the length of the popup-window list
(window contents are display-only). -/
structure DetState where
  frame_count : ℕ
  last_height : Option ℚ
  last_direction : Option Dir
  direction_changes : ℕ
  last_motion_time : ℚ
  last_seen_hands_time : ℚ
  last_dy : ℚ
  current_direction : Option Dir
  party_mode : Bool
  hud_visible : Bool
  music_start_time : Option ℚ
  music_busy : Bool
  popup_active : Bool
  popup_windows : ℕ
  popup_last_shuffle_time : ℚ
deriving DecidableEq

/-- State at loop entry (lines 303-320), with `t0` the wall-clock time of
the two `time.time()` calls at lines 307-308. -/
def initState (t0 : ℚ) : DetState :=
  { frame_count := 0
    last_height := none
    last_direction := none
    direction_changes := 0
    last_motion_time := t0
    last_seen_hands_time := t0
    last_dy := 0
    current_direction := none
    party_mode := false
    hud_visible := false
    music_start_time := none
    music_busy := false
    popup_active := false
    popup_windows := 0
    popup_last_shuffle_time := 0 }

/-- One tick's input: the time sampled at line 336, the average wrist
height (`some` exactly when at least one hand is detected, lines 335-342)
and the key read at line 486. -/
structure Input where
  now : ℚ
  obs : Option ℚ
  key : Key

/-- Lines 338-347: when hands are present, refresh `last_seen_hands_time`
and use the observed height; otherwise hold `last_height` while within
`HAND_LOST_GRACE` of the last sighting, else yield no height. -/
def stabilize (cfg : Config) (s : DetState) (now : ℚ) (obs : Option ℚ) :
    DetState × Option ℚ :=
  match obs with
  | some h => ({ s with last_seen_hands_time := now }, some h)
  | none =>
    match s.last_height with
    | some h =>
      if now - s.last_seen_hands_time ≤ cfg.hand_lost_grace then (s, some h)
      else (s, none)
    | none => (s, none)

/-- Result of the motion block: the updated state, whether a direction
change was counted this tick (line 369) and whether 67 mode was switched
on this tick (line 377). -/
structure MotionOut where
  state : DetState
  reversal : Bool
  activated : Bool
deriving DecidableEq

/-- Lines 359-388: compute `dy` against `last_height`, ignore deltas at or
below `MOVEMENT_THRESHOLD`, derive the direction (`dy < 0` means up), count
a change when it differs from `last_direction`, refresh `last_motion_time`
on a change, and switch `party_mode` on when the target is reached while
off (starting the music and recording `music_start_time` when the music is
loaded, line 379-384); finally store the direction and the height. -/
def motion (cfg : Config) (s : DetState) (now : ℚ) (avg : Option ℚ) :
    MotionOut :=
  match avg with
  | none => ⟨s, false, false⟩
  | some h =>
    match s.last_height with
    | none => ⟨{ s with last_height := some h }, false, false⟩
    | some prev =>
      let dy := h - prev
      let s1 := { s with last_dy := dy }
      if |dy| > cfg.movement_threshold then
        let d : Dir := if dy < 0 then Dir.up else Dir.down
        let s2 := { s1 with current_direction := some d, hud_visible := true }
        let isRev : Bool :=
          match s2.last_direction with
          | some ld => if d = ld then false else true
          | none => false
        if isRev then
          let s3 := { s2 with direction_changes := s2.direction_changes + 1,
                              last_motion_time := now }
          if cfg.direction_change_target ≤ s3.direction_changes ∧
              s3.party_mode = false then
            ⟨{ s3 with party_mode := true,
                       music_busy :=
                         if cfg.music_loaded then true else s3.music_busy,
                       music_start_time :=
                         if cfg.music_loaded then some now else none,
                       last_direction := some d,
                       last_height := some h }, true, true⟩
          else
            ⟨{ s3 with last_direction := some d, last_height := some h },
              true, false⟩
        else
          ⟨{ s2 with last_direction := some d, last_height := some h },
            false, false⟩
      else
        ⟨{ s1 with last_height := some h }, false, false⟩

/-- Lines 390-410: when `now - last_motion_time` exceeds
`NO_MOTION_TIMEOUT`, switch 67 mode off (stopping the music if loaded and
playing), zero the change count, clear directions and `last_dy`, re-arm the
timer, hide the HUD, and tear down the popup state.  The boolean reports
whether the mode was switched off this tick. -/
def idleCheck (cfg : Config) (s : DetState) (now : ℚ) : DetState × Bool :=
  if cfg.no_motion_timeout < now - s.last_motion_time then
    ({ s with party_mode := false,
              music_busy :=
                if s.party_mode = true ∧ cfg.music_loaded = true then false
                else s.music_busy,
              direction_changes := 0,
              last_direction := none,
              current_direction := none,
              last_dy := 0,
              last_motion_time := now,
              hud_visible := false,
              popup_active := false,
              popup_windows := 0,
              music_start_time := none }, s.party_mode)
  else (s, false)

/-- Lines 462-468: while in 67 mode with a recorded music start and at
least one gif loaded, the first tick where `now - music_start_time` reaches
`POPUP_DELAY_SECONDS` creates the popup windows, seeds the shuffle timer
and marks popups active.  The boolean reports that activation. -/
def popupStep (cfg : Config) (s : DetState) (now : ℚ) : DetState × Bool :=
  match s.music_start_time with
  | some mst =>
    if s.party_mode = true ∧ cfg.num_popup_gifs ≠ 0 ∧
        cfg.popup_delay_seconds ≤ now - mst ∧ s.popup_active = false then
      ({ s with popup_active := true,
                popup_last_shuffle_time := now,
                popup_windows := cfg.popup_num_windows }, true)
    else (s, false)
  | none => (s, false)

/-- Lines 470-482: while popups are active and windows exist, a shuffle
fires once `POPUP_SHUFFLE_INTERVAL` has elapsed since the last one
(`shuffle_one_popup_window` keeps the window count unchanged; per-window
frame indices are display-only and not modelled). -/
def shuffleStep (cfg : Config) (s : DetState) (now : ℚ) : DetState × Bool :=
  if s.popup_active = true ∧ s.popup_windows ≠ 0 then
    if cfg.popup_shuffle_interval ≤ now - s.popup_last_shuffle_time then
      ({ s with popup_last_shuffle_time := now }, true)
    else (s, false)
  else (s, false)

/-- Lines 488-500: the `m` key, enabled only when the music is loaded,
toggles playback.  Toggling off clears `music_start_time`; toggling on sets
it to the current time; both directions deactivate and destroy popups.
`party_mode` and `direction_changes` are untouched. -/
def keyStep (cfg : Config) (s : DetState) (now : ℚ) (key : Key) : DetState :=
  if key = Key.keyM ∧ cfg.music_loaded = true then
    if s.music_busy = true then
      { s with music_busy := false,
               music_start_time := none,
               popup_active := false,
               popup_windows := 0 }
    else
      { s with music_busy := true,
               music_start_time := some now,
               popup_active := false,
               popup_windows := 0 }
  else s

/-- Events reported by one tick, for the claims' observable effects. -/
structure Events where
  reversal : Bool
  activated : Bool
  deactivated : Bool
  popupStart : Bool
  shuffled : Bool
deriving DecidableEq

/-- The frame counter bump (line 327) followed by stabilisation and the
motion block: the state of the loop just after line 388. -/
def postMotion (cfg : Config) (s : DetState) (i : Input) : MotionOut :=
  let s0 := { s with frame_count := s.frame_count + 1 }
  let p := stabilize cfg s0 i.now i.obs
  motion cfg p.1 i.now p.2

/-- One full iteration of the `while True` loop, in source order. -/
def tick (cfg : Config) (s : DetState) (i : Input) : DetState × Events :=
  let m := postMotion cfg s i
  let q1 := idleCheck cfg m.state i.now
  let q2 := popupStep cfg q1.1 i.now
  let q3 := shuffleStep cfg q2.1 i.now
  let s5 := keyStep cfg q3.1 i.now i.key
  (s5, ⟨m.reversal, m.activated, q1.2, q2.2, q3.2⟩)

/-- Iterated ticks. -/
def run (cfg : Config) (s : DetState) : List Input → DetState
  | [] => s
  | i :: rest => run cfg (tick cfg s i).1 rest

/-- The per-tick events of a run. -/
def eventsOf (cfg : Config) (s : DetState) : List Input → List Events
  | [] => []
  | i :: rest => (tick cfg s i).2 :: eventsOf cfg (tick cfg s i).1 rest

/-- The delta the motion block would compute this tick (line 361), when a
stabilised height and a previous height both exist. -/
def tickDelta (cfg : Config) (s : DetState) (i : Input) : Option ℚ :=
  let s0 := { s with frame_count := s.frame_count + 1 }
  let p := stabilize cfg s0 i.now i.obs
  match p.2, p.1.last_height with
  | some h, some prev => some (h - prev)
  | some _, none => none
  | none, _ => none

/-- States the loop can actually be in: reachable from some start time by
some input sequence. -/
def Reachable (cfg : Config) (s : DetState) : Prop :=
  ∃ t0 inputs, run cfg (initState t0) inputs = s

/-- Once the change count has reached the target, 67 mode is on: the code
switches `party_mode` on in the same tick in which `direction_changes`
reaches `DIRECTION_CHANGE_TARGET`, and every reset of the count also
switches the mode off. -/
def Inv (cfg : Config) (s : DetState) : Prop :=
  cfg.direction_change_target ≤ s.direction_changes → s.party_mode = true

/-- One tick whose computed delta (if any) is at or below the movement
threshold, taken before the idle timeout has elapsed. -/
def NoiseTick (cfg : Config) (s : DetState) (i : Input) : Prop :=
  (∀ d, tickDelta cfg s i = some d → |d| ≤ cfg.movement_threshold) ∧
  i.now - s.last_motion_time ≤ cfg.no_motion_timeout

/-- A run all of whose ticks, from the states actually traversed, are
noise ticks within the idle timeout. -/
def NoisyRun (cfg : Config) : DetState → List Input → Prop
  | _, [] => True
  | s, i :: rest => NoiseTick cfg s i ∧ NoisyRun cfg (tick cfg s i).1 rest

/-- Inputs with a hand observation and no key press, for the concrete
traces below. -/
def mkIn (t p : ℚ) : Input := ⟨t, some p, Key.noKey⟩

def noiseCfg : Config := defaultConfig false 0

def noiseStart : List Input := [mkIn 0 0.5, mkIn 0.1 0.52, mkIn 0.2 0.48]

def noiseLateTick : Input := ⟨0.9, some 0.481, Key.noKey⟩

def c1cfg : Config := defaultConfig false 0

def c1inputs : List Input :=
  [mkIn 0 0.5, mkIn 0.1 0.52, mkIn 0.2 0.48, mkIn 0.3 0.52,
   mkIn 0.4 0.48, mkIn 0.5 0.52, mkIn 0.6 0.55, mkIn 0.7 0.58,
   mkIn 0.8 0.61, mkIn 0.9 0.64, mkIn 1.0 0.67]

def c1lastTick : Input := mkIn 1.1 0.7

def c2cfg : Config := defaultConfig true 0

def c2start : List Input :=
  [mkIn 0 0.5, mkIn 0.1 0.52, mkIn 0.2 0.48, mkIn 0.3 0.52]

def c2toggleTick : Input := ⟨0.35, none, Key.keyM⟩

def c4cfg : Config := defaultConfig true 1

def c4inputs : List Input :=
  [mkIn 0 0.5, mkIn 0.5 0.52, mkIn 1 0.48, mkIn 1.5 0.52, mkIn 2 0.48,
   mkIn 2.5 0.52, mkIn 3 0.48, mkIn 3.5 0.52, mkIn 4 0.48,
   mkIn 4.5 0.52, mkIn 5 0.48, mkIn 5.5 0.52, mkIn 6 0.48,
   mkIn 6.5 0.52, mkIn 7 0.48, mkIn 7.5 0.52, mkIn 8 0.48,
   ⟨8.6, none, Key.noKey⟩]

def c3cfg : Config := defaultConfig false 0

def c3inputs : List Input :=
  [mkIn 0 0.5, mkIn 0.1 0.52, mkIn 0.2 0.48, mkIn 0.3 0.52,
   mkIn 0.4 0.48, mkIn 0.5 0.52]

/-! ### Unfolding equations for `tick` -/

theorem tick_fst (cfg : Config) (s : DetState) (i : Input) :
    (tick cfg s i).1 =
      keyStep cfg (shuffleStep cfg (popupStep cfg
        (idleCheck cfg (postMotion cfg s i).state i.now).1 i.now).1 i.now).1
        i.now i.key := rfl

theorem tick_reversal (cfg : Config) (s : DetState) (i : Input) :
    (tick cfg s i).2.reversal = (postMotion cfg s i).reversal := rfl

theorem tick_activated (cfg : Config) (s : DetState) (i : Input) :
    (tick cfg s i).2.activated = (postMotion cfg s i).activated := rfl

theorem tick_deactivated (cfg : Config) (s : DetState) (i : Input) :
    (tick cfg s i).2.deactivated =
      (idleCheck cfg (postMotion cfg s i).state i.now).2 := rfl

theorem tick_popupStart (cfg : Config) (s : DetState) (i : Input) :
    (tick cfg s i).2.popupStart =
      (popupStep cfg (idleCheck cfg (postMotion cfg s i).state i.now).1
        i.now).2 := rfl

/-! ### Characterisation of the stabiliser -/

theorem stabilize_some (cfg : Config) (s : DetState) (now v : ℚ) :
    stabilize cfg s now (some v) =
      ({ s with last_seen_hands_time := now }, some v) := rfl

theorem stabilize_none_held (cfg : Config) (s : DetState) (now : ℚ) (p : ℚ)
    (hp : s.last_height = some p)
    (hg : now - s.last_seen_hands_time ≤ cfg.hand_lost_grace) :
    stabilize cfg s now none = (s, some p) := by
  unfold stabilize
  rw [hp]
  simp [hg]

theorem stabilize_none_lost (cfg : Config) (s : DetState) (now : ℚ)
    (h : s.last_height = none ∨
      cfg.hand_lost_grace < now - s.last_seen_hands_time) :
    stabilize cfg s now none = (s, none) := by
  unfold stabilize
  rcases hp : s.last_height with _ | p
  · rfl
  · rcases h with h | h
    · rw [hp] at h; cases h
    · simp [not_le.mpr h]

/-! ### Characterisation of the key handler -/

theorem keyStep_preserved (cfg : Config) (s : DetState) (now : ℚ) (key : Key) :
    (keyStep cfg s now key).party_mode = s.party_mode ∧
    (keyStep cfg s now key).direction_changes = s.direction_changes ∧
    (keyStep cfg s now key).last_direction = s.last_direction ∧
    (keyStep cfg s now key).last_motion_time = s.last_motion_time ∧
    (keyStep cfg s now key).popup_last_shuffle_time =
      s.popup_last_shuffle_time ∧
    (keyStep cfg s now key).last_dy = s.last_dy := by
  unfold keyStep
  split_ifs <;> simp

theorem keyStep_noLoad (cfg : Config) (s : DetState) (now : ℚ) (key : Key)
    (h : cfg.music_loaded = false) : keyStep cfg s now key = s := by
  unfold keyStep
  split_ifs with hc
  · rw [hc.2] at h; cases h
  · rw [hc.2] at h; cases h
  · rfl

theorem keyStep_m (cfg : Config) (s : DetState) (now : ℚ)
    (h : cfg.music_loaded = true) :
    keyStep cfg s now Key.keyM =
      (if s.music_busy = true then
        { s with music_busy := false, music_start_time := none,
                 popup_active := false, popup_windows := 0 }
      else
        { s with music_busy := true, music_start_time := some now,
                 popup_active := false, popup_windows := 0 }) := by
  unfold keyStep
  rw [if_pos ⟨rfl, h⟩]

/-! ### Characterisation of the shuffle step -/

theorem shuffleStep_preserved (cfg : Config) (s : DetState) (now : ℚ) :
    (shuffleStep cfg s now).1.party_mode = s.party_mode ∧
    (shuffleStep cfg s now).1.direction_changes = s.direction_changes ∧
    (shuffleStep cfg s now).1.last_direction = s.last_direction ∧
    (shuffleStep cfg s now).1.last_motion_time = s.last_motion_time ∧
    (shuffleStep cfg s now).1.music_start_time = s.music_start_time ∧
    (shuffleStep cfg s now).1.music_busy = s.music_busy ∧
    (shuffleStep cfg s now).1.popup_active = s.popup_active ∧
    (shuffleStep cfg s now).1.popup_windows = s.popup_windows ∧
    (shuffleStep cfg s now).1.last_dy = s.last_dy := by
  unfold shuffleStep
  split_ifs <;> simp

/-! ### Characterisation of the idle-timeout block -/

theorem idleCheck_pos (cfg : Config) (s : DetState) (now : ℚ)
    (h : cfg.no_motion_timeout < now - s.last_motion_time) :
    idleCheck cfg s now =
      ({ s with party_mode := false,
                music_busy :=
                  if s.party_mode = true ∧ cfg.music_loaded = true then false
                  else s.music_busy,
                direction_changes := 0,
                last_direction := none,
                current_direction := none,
                last_dy := 0,
                last_motion_time := now,
                hud_visible := false,
                popup_active := false,
                popup_windows := 0,
                music_start_time := none }, s.party_mode) := by
  unfold idleCheck
  rw [if_pos h]

theorem idleCheck_neg (cfg : Config) (s : DetState) (now : ℚ)
    (h : ¬ cfg.no_motion_timeout < now - s.last_motion_time) :
    idleCheck cfg s now = (s, false) := by
  unfold idleCheck
  rw [if_neg h]

/-! ### Characterisation of the popup-activation step -/

theorem popupStep_fires_iff (cfg : Config) (s : DetState) (now : ℚ) :
    (popupStep cfg s now).2 = true ↔
      s.party_mode = true ∧ s.popup_active = false ∧
      cfg.num_popup_gifs ≠ 0 ∧
      ∃ a, s.music_start_time = some a ∧
        cfg.popup_delay_seconds ≤ now - a := by
  rcases hm : s.music_start_time with _ | a
  · simp [popupStep, hm]
  · by_cases h : s.party_mode = true ∧ cfg.num_popup_gifs ≠ 0 ∧
        cfg.popup_delay_seconds ≤ now - a ∧ s.popup_active = false
    · simp only [popupStep, hm, if_pos h]
      exact ⟨fun _ => ⟨h.1, h.2.2.2, h.2.1, a, rfl, h.2.2.1⟩, fun _ => trivial⟩
    · simp only [popupStep, hm, if_neg h]
      refine ⟨fun hc => absurd hc Bool.false_ne_true, ?_⟩
      rintro ⟨h1, h2, h3, b, hb, h4⟩
      obtain rfl : a = b := Option.some.inj hb
      exact absurd ⟨h1, h3, h4, h2⟩ h

theorem popupStep_pos (cfg : Config) (s : DetState) (now : ℚ)
    (h : (popupStep cfg s now).2 = true) :
    (popupStep cfg s now).1 =
      { s with popup_active := true,
               popup_last_shuffle_time := now,
               popup_windows := cfg.popup_num_windows } := by
  rcases hm : s.music_start_time with _ | a
  · simp [popupStep, hm] at h
  · by_cases hc : s.party_mode = true ∧ cfg.num_popup_gifs ≠ 0 ∧
        cfg.popup_delay_seconds ≤ now - a ∧ s.popup_active = false
    · simp only [popupStep, hm, if_pos hc]
    · simp [popupStep, hm, if_neg hc] at h

theorem popupStep_neg (cfg : Config) (s : DetState) (now : ℚ)
    (h : (popupStep cfg s now).2 = false) :
    (popupStep cfg s now).1 = s := by
  rcases hm : s.music_start_time with _ | a
  · simp [popupStep, hm]
  · by_cases hc : s.party_mode = true ∧ cfg.num_popup_gifs ≠ 0 ∧
        cfg.popup_delay_seconds ≤ now - a ∧ s.popup_active = false
    · simp [popupStep, hm, if_pos hc] at h
    · simp only [popupStep, hm, if_neg hc]

theorem popupStep_preserved (cfg : Config) (s : DetState) (now : ℚ) :
    (popupStep cfg s now).1.party_mode = s.party_mode ∧
    (popupStep cfg s now).1.direction_changes = s.direction_changes ∧
    (popupStep cfg s now).1.last_direction = s.last_direction ∧
    (popupStep cfg s now).1.last_motion_time = s.last_motion_time ∧
    (popupStep cfg s now).1.music_start_time = s.music_start_time ∧
    (popupStep cfg s now).1.music_busy = s.music_busy ∧
    (popupStep cfg s now).1.last_dy = s.last_dy := by
  rcases hf : (popupStep cfg s now).2 with _ | _
  · rw [popupStep_neg cfg s now hf]
    simp
  · rw [popupStep_pos cfg s now hf]
    have := (popupStep_fires_iff cfg s now).mp hf
    obtain ⟨-, -, -, a, ha, -⟩ := this
    simp [ha]

/-! ### Characterisation of the motion block -/

theorem stabilize_preserved (cfg : Config) (s : DetState) (now : ℚ)
    (obs : Option ℚ) :
    (stabilize cfg s now obs).1.direction_changes = s.direction_changes ∧
    (stabilize cfg s now obs).1.last_direction = s.last_direction ∧
    (stabilize cfg s now obs).1.last_motion_time = s.last_motion_time ∧
    (stabilize cfg s now obs).1.party_mode = s.party_mode ∧
    (stabilize cfg s now obs).1.music_start_time = s.music_start_time ∧
    (stabilize cfg s now obs).1.last_height = s.last_height ∧
    (stabilize cfg s now obs).1.popup_active = s.popup_active ∧
    (stabilize cfg s now obs).1.popup_windows = s.popup_windows ∧
    (stabilize cfg s now obs).1.popup_last_shuffle_time =
      s.popup_last_shuffle_time ∧
    (stabilize cfg s now obs).1.last_dy = s.last_dy ∧
    (stabilize cfg s now obs).1.music_busy = s.music_busy ∧
    (stabilize cfg s now obs).1.current_direction = s.current_direction := by
  rcases obs with _ | v
  · rcases hlh : s.last_height with _ | p
    · simp [stabilize, hlh]
    · simp only [stabilize, hlh]
      split_ifs <;> simp [hlh]
  · simp [stabilize]

theorem motion_count_lmt (cfg : Config) (s : DetState) (now : ℚ)
    (avg : Option ℚ) :
    ((motion cfg s now avg).reversal = true →
      (motion cfg s now avg).state.direction_changes =
        s.direction_changes + 1 ∧
      (motion cfg s now avg).state.last_motion_time = now) ∧
    ((motion cfg s now avg).reversal = false →
      (motion cfg s now avg).state.direction_changes = s.direction_changes ∧
      (motion cfg s now avg).state.last_motion_time =
        s.last_motion_time) := by
  rcases avg with _ | h
  · simp [motion]
  · rcases hlh : s.last_height with _ | prev
    · simp [motion, hlh]
    · rcases hld : s.last_direction with _ | ld <;>
        simp only [motion, hlh, hld] <;> split_ifs <;> simp_all

theorem motion_preserved (cfg : Config) (s : DetState) (now : ℚ)
    (avg : Option ℚ) :
    (motion cfg s now avg).state.last_seen_hands_time =
      s.last_seen_hands_time ∧
    (motion cfg s now avg).state.popup_active = s.popup_active ∧
    (motion cfg s now avg).state.popup_windows = s.popup_windows ∧
    (motion cfg s now avg).state.popup_last_shuffle_time =
      s.popup_last_shuffle_time := by
  rcases avg with _ | h
  · simp [motion]
  · rcases hlh : s.last_height with _ | prev
    · simp [motion, hlh]
    · rcases hld : s.last_direction with _ | ld <;>
        simp only [motion, hlh, hld] <;> split_ifs <;> simp_all

theorem motion_party (cfg : Config) (s : DetState) (now : ℚ)
    (avg : Option ℚ) :
    (motion cfg s now avg).state.party_mode =
      (s.party_mode || (motion cfg s now avg).activated) := by
  rcases avg with _ | h
  · simp [motion]
  · rcases hlh : s.last_height with _ | prev
    · simp [motion, hlh]
    · rcases hld : s.last_direction with _ | ld <;>
        simp only [motion, hlh, hld] <;> split_ifs <;> simp_all

theorem motion_activated_iff (cfg : Config) (s : DetState) (now : ℚ)
    (avg : Option ℚ) :
    (motion cfg s now avg).activated = true ↔
      (motion cfg s now avg).reversal = true ∧
      cfg.direction_change_target ≤
        (motion cfg s now avg).state.direction_changes ∧
      s.party_mode = false := by
  rcases avg with _ | h
  · simp [motion]
  · rcases hlh : s.last_height with _ | prev
    · simp [motion, hlh]
    · rcases hld : s.last_direction with _ | ld <;>
        simp only [motion, hlh, hld] <;> split_ifs <;> simp_all

theorem motion_mst (cfg : Config) (s : DetState) (now : ℚ)
    (avg : Option ℚ) :
    ((motion cfg s now avg).activated = false →
      (motion cfg s now avg).state.music_start_time =
        s.music_start_time) ∧
    ((motion cfg s now avg).activated = true →
      (motion cfg s now avg).state.music_start_time =
        (if cfg.music_loaded = true then some now else none)) := by
  rcases avg with _ | h
  · simp [motion]
  · rcases hlh : s.last_height with _ | prev
    · simp [motion, hlh]
    · rcases hld : s.last_direction with _ | ld <;>
        simp only [motion, hlh, hld] <;> split_ifs <;> simp_all

theorem motion_noise (cfg : Config) (s : DetState) (now : ℚ)
    (avg : Option ℚ)
    (hn : ∀ hh prev, avg = some hh → s.last_height = some prev →
      |hh - prev| ≤ cfg.movement_threshold) :
    (motion cfg s now avg).reversal = false ∧
    (motion cfg s now avg).activated = false ∧
    (motion cfg s now avg).state.direction_changes = s.direction_changes ∧
    (motion cfg s now avg).state.last_direction = s.last_direction ∧
    (motion cfg s now avg).state.last_motion_time = s.last_motion_time ∧
    (motion cfg s now avg).state.party_mode = s.party_mode ∧
    (motion cfg s now avg).state.music_start_time = s.music_start_time ∧
    (motion cfg s now avg).state.current_direction =
      s.current_direction := by
  rcases avg with _ | h
  · simp [motion]
  · rcases hlh : s.last_height with _ | prev
    · simp [motion, hlh]
    · have hle := hn h prev rfl hlh
      simp only [motion, hlh]
      rw [if_neg (not_lt.mpr hle)]
      simp

/-! ### The same facts at the level of `postMotion` -/

theorem postMotion_count_lmt (cfg : Config) (s : DetState) (i : Input) :
    ((postMotion cfg s i).reversal = true →
      (postMotion cfg s i).state.direction_changes =
        s.direction_changes + 1 ∧
      (postMotion cfg s i).state.last_motion_time = i.now) ∧
    ((postMotion cfg s i).reversal = false →
      (postMotion cfg s i).state.direction_changes = s.direction_changes ∧
      (postMotion cfg s i).state.last_motion_time = s.last_motion_time) := by
  simp only [postMotion]
  have hp := stabilize_preserved cfg
    { s with frame_count := s.frame_count + 1 } i.now i.obs
  have hm := motion_count_lmt cfg
    (stabilize cfg { s with frame_count := s.frame_count + 1 } i.now
      i.obs).1 i.now
    (stabilize cfg { s with frame_count := s.frame_count + 1 } i.now
      i.obs).2
  rw [hp.1, hp.2.2.1] at hm
  exact hm

theorem postMotion_popup_preserved (cfg : Config) (s : DetState)
    (i : Input) :
    (postMotion cfg s i).state.popup_active = s.popup_active ∧
    (postMotion cfg s i).state.popup_windows = s.popup_windows ∧
    (postMotion cfg s i).state.popup_last_shuffle_time =
      s.popup_last_shuffle_time := by
  simp only [postMotion]
  have hp := stabilize_preserved cfg
    { s with frame_count := s.frame_count + 1 } i.now i.obs
  have hm := motion_preserved cfg
    (stabilize cfg { s with frame_count := s.frame_count + 1 } i.now
      i.obs).1 i.now
    (stabilize cfg { s with frame_count := s.frame_count + 1 } i.now
      i.obs).2
  rw [hp.2.2.2.2.2.2.1, hp.2.2.2.2.2.2.2.1, hp.2.2.2.2.2.2.2.2.1] at hm
  exact ⟨hm.2.1, hm.2.2.1, hm.2.2.2⟩

theorem postMotion_party (cfg : Config) (s : DetState) (i : Input) :
    (postMotion cfg s i).state.party_mode =
      (s.party_mode || (postMotion cfg s i).activated) := by
  simp only [postMotion]
  have hp := stabilize_preserved cfg
    { s with frame_count := s.frame_count + 1 } i.now i.obs
  have hm := motion_party cfg
    (stabilize cfg { s with frame_count := s.frame_count + 1 } i.now
      i.obs).1 i.now
    (stabilize cfg { s with frame_count := s.frame_count + 1 } i.now
      i.obs).2
  rw [hp.2.2.2.1] at hm
  exact hm

theorem postMotion_activated_iff (cfg : Config) (s : DetState) (i : Input) :
    (postMotion cfg s i).activated = true ↔
      (postMotion cfg s i).reversal = true ∧
      cfg.direction_change_target ≤
        (postMotion cfg s i).state.direction_changes ∧
      s.party_mode = false := by
  simp only [postMotion]
  have hp := stabilize_preserved cfg
    { s with frame_count := s.frame_count + 1 } i.now i.obs
  have hm := motion_activated_iff cfg
    (stabilize cfg { s with frame_count := s.frame_count + 1 } i.now
      i.obs).1 i.now
    (stabilize cfg { s with frame_count := s.frame_count + 1 } i.now
      i.obs).2
  rw [hp.2.2.2.1] at hm
  exact hm

theorem postMotion_mst (cfg : Config) (s : DetState) (i : Input) :
    ((postMotion cfg s i).activated = false →
      (postMotion cfg s i).state.music_start_time = s.music_start_time) ∧
    ((postMotion cfg s i).activated = true →
      (postMotion cfg s i).state.music_start_time =
        (if cfg.music_loaded = true then some i.now else none)) := by
  simp only [postMotion]
  have hp := stabilize_preserved cfg
    { s with frame_count := s.frame_count + 1 } i.now i.obs
  have hm := motion_mst cfg
    (stabilize cfg { s with frame_count := s.frame_count + 1 } i.now
      i.obs).1 i.now
    (stabilize cfg { s with frame_count := s.frame_count + 1 } i.now
      i.obs).2
  rw [hp.2.2.2.2.1] at hm
  exact hm

theorem postMotion_noise (cfg : Config) (s : DetState) (i : Input)
    (hn : ∀ d, tickDelta cfg s i = some d →
      |d| ≤ cfg.movement_threshold) :
    (postMotion cfg s i).reversal = false ∧
    (postMotion cfg s i).activated = false ∧
    (postMotion cfg s i).state.direction_changes = s.direction_changes ∧
    (postMotion cfg s i).state.last_direction = s.last_direction ∧
    (postMotion cfg s i).state.last_motion_time = s.last_motion_time ∧
    (postMotion cfg s i).state.party_mode = s.party_mode ∧
    (postMotion cfg s i).state.music_start_time = s.music_start_time ∧
    (postMotion cfg s i).state.current_direction = s.current_direction := by
  simp only [postMotion]
  have hp := stabilize_preserved cfg
    { s with frame_count := s.frame_count + 1 } i.now i.obs
  have hm := motion_noise cfg
    (stabilize cfg { s with frame_count := s.frame_count + 1 } i.now
      i.obs).1 i.now
    (stabilize cfg { s with frame_count := s.frame_count + 1 } i.now
      i.obs).2 ?_
  · rw [hp.1, hp.2.1, hp.2.2.1, hp.2.2.2.1, hp.2.2.2.2.1,
      hp.2.2.2.2.2.2.2.2.2.2.2] at hm
    exact hm
  · intro hh prev h2 hlh
    apply hn
    simp only [tickDelta]
    rw [h2, hlh]

/-! ### Composition: how a full tick transforms the key fields -/

theorem tick_party_eq (cfg : Config) (s : DetState) (i : Input) :
    (tick cfg s i).1.party_mode =
      (if cfg.no_motion_timeout <
          i.now - (postMotion cfg s i).state.last_motion_time then false
        else (postMotion cfg s i).state.party_mode) := by
  rw [tick_fst]
  rw [(keyStep_preserved cfg _ i.now i.key).1,
    (shuffleStep_preserved cfg _ i.now).1,
    (popupStep_preserved cfg _ i.now).1]
  by_cases hT : cfg.no_motion_timeout <
      i.now - (postMotion cfg s i).state.last_motion_time
  · rw [idleCheck_pos cfg _ i.now hT, if_pos hT]
  · rw [idleCheck_neg cfg _ i.now hT, if_neg hT]

theorem tick_count_eq (cfg : Config) (s : DetState) (i : Input) :
    (tick cfg s i).1.direction_changes =
      (if cfg.no_motion_timeout <
          i.now - (postMotion cfg s i).state.last_motion_time then 0
        else (postMotion cfg s i).state.direction_changes) := by
  rw [tick_fst]
  rw [(keyStep_preserved cfg _ i.now i.key).2.1,
    (shuffleStep_preserved cfg _ i.now).2.1,
    (popupStep_preserved cfg _ i.now).2.1]
  by_cases hT : cfg.no_motion_timeout <
      i.now - (postMotion cfg s i).state.last_motion_time
  · rw [idleCheck_pos cfg _ i.now hT, if_pos hT]
  · rw [idleCheck_neg cfg _ i.now hT, if_neg hT]

theorem tick_lastdir_eq (cfg : Config) (s : DetState) (i : Input) :
    (tick cfg s i).1.last_direction =
      (if cfg.no_motion_timeout <
          i.now - (postMotion cfg s i).state.last_motion_time then none
        else (postMotion cfg s i).state.last_direction) := by
  rw [tick_fst]
  rw [(keyStep_preserved cfg _ i.now i.key).2.2.1,
    (shuffleStep_preserved cfg _ i.now).2.2.1,
    (popupStep_preserved cfg _ i.now).2.2.1]
  by_cases hT : cfg.no_motion_timeout <
      i.now - (postMotion cfg s i).state.last_motion_time
  · rw [idleCheck_pos cfg _ i.now hT, if_pos hT]
  · rw [idleCheck_neg cfg _ i.now hT, if_neg hT]

theorem tick_lmt_eq (cfg : Config) (s : DetState) (i : Input) :
    (tick cfg s i).1.last_motion_time =
      (if cfg.no_motion_timeout <
          i.now - (postMotion cfg s i).state.last_motion_time then i.now
        else (postMotion cfg s i).state.last_motion_time) := by
  rw [tick_fst]
  rw [(keyStep_preserved cfg _ i.now i.key).2.2.2.1,
    (shuffleStep_preserved cfg _ i.now).2.2.2.1,
    (popupStep_preserved cfg _ i.now).2.2.2.1]
  by_cases hT : cfg.no_motion_timeout <
      i.now - (postMotion cfg s i).state.last_motion_time
  · rw [idleCheck_pos cfg _ i.now hT, if_pos hT]
  · rw [idleCheck_neg cfg _ i.now hT, if_neg hT]

/-! ### The reachability invariant behind the trigger characterisation -/

theorem inv_init (cfg : Config) (ht : 1 ≤ cfg.direction_change_target)
    (t0 : ℚ) : Inv cfg (initState t0) := by
  intro h
  exfalso
  simp only [initState] at h
  omega

theorem inv_tick (cfg : Config) (s : DetState) (i : Input)
    (ht : 1 ≤ cfg.direction_change_target) (hs : Inv cfg s) :
    Inv cfg (tick cfg s i).1 := by
  intro hc
  rw [tick_party_eq]
  rw [tick_count_eq] at hc
  by_cases hT : cfg.no_motion_timeout <
      i.now - (postMotion cfg s i).state.last_motion_time
  · rw [if_pos hT] at hc
    omega
  · rw [if_neg hT] at hc
    rw [if_neg hT, postMotion_party]
    rcases hact : (postMotion cfg s i).activated with _ | _
    · rcases hrev : (postMotion cfg s i).reversal with _ | _
      · have hcm := (postMotion_count_lmt cfg s i).2 hrev
        rw [hcm.1] at hc
        rw [hs hc]
        simp
      · have hiff := postMotion_activated_iff cfg s i
        rw [hact] at hiff
        have hno : ¬((postMotion cfg s i).reversal = true ∧
            cfg.direction_change_target ≤
              (postMotion cfg s i).state.direction_changes ∧
            s.party_mode = false) := by
          rw [← hiff]
          simp
        rcases hpm : s.party_mode with _ | _
        · exact absurd ⟨hrev, hc, hpm⟩ hno
        · simp
    · simp

theorem inv_run (cfg : Config) (s : DetState) (inputs : List Input)
    (ht : 1 ≤ cfg.direction_change_target) (hs : Inv cfg s) :
    Inv cfg (run cfg s inputs) := by
  induction inputs generalizing s with
  | nil => exact hs
  | cons i rest ih =>
    simp only [run]
    exact ih (tick cfg s i).1 (inv_tick cfg s i ht hs)

theorem inv_reachable (cfg : Config) (s : DetState)
    (ht : 1 ≤ cfg.direction_change_target) (hs : Reachable cfg s) :
    Inv cfg s := by
  obtain ⟨t0, inputs, rfl⟩ := hs
  exact inv_run cfg (initState t0) inputs ht (inv_init cfg ht t0)

theorem motion_last_dy (cfg : Config) (s : DetState) (now : ℚ)
    (avg : Option ℚ) (hh prev : ℚ) (ha : avg = some hh)
    (hlh : s.last_height = some prev) :
    (motion cfg s now avg).state.last_dy = hh - prev := by
  subst ha
  rcases hld : s.last_direction with _ | ld <;>
    simp only [motion, hlh, hld] <;> split_ifs <;> simp_all

/-! ### Claim theorems -/

/-- C5: the stabiliser yields the sample value and refreshes the
last-seen timestamp when a sample is present; when absent it holds the
previous position exactly while a previous position exists and
`now - last_seen_valid_time ≤ HAND_LOST_GRACE`, and otherwise yields no
position. -/
theorem c5_stabilizer_spec (cfg : Config) (s : DetState) (now : ℚ)
    (obs : Option ℚ) :
    (∀ v, obs = some v →
      stabilize cfg s now obs =
        ({ s with last_seen_hands_time := now }, some v)) ∧
    (obs = none → ∀ p, s.last_height = some p →
      now - s.last_seen_hands_time ≤ cfg.hand_lost_grace →
      (stabilize cfg s now obs).2 = some p) ∧
    (obs = none →
      (s.last_height = none ∨
        cfg.hand_lost_grace < now - s.last_seen_hands_time) →
      (stabilize cfg s now obs).2 = none) := by
  refine ⟨?_, ?_, ?_⟩
  · rintro v rfl
    exact stabilize_some cfg s now v
  · rintro rfl p hp hg
    rw [stabilize_none_held cfg s now p hp hg]
  · rintro rfl h
    rw [stabilize_none_lost cfg s now h]

/-- Witness for C5, on the spec's own example: a valid position 0.5 at
time 0 is still held at time 1.0 and is gone at time 1.6. -/
theorem c5_stabilizer_spec_witness :
    (stabilize (defaultConfig false 0)
      { initState 0 with last_height := some 0.5 } 1 none).2 = some 0.5 ∧
    (stabilize (defaultConfig false 0)
      { initState 0 with last_height := some 0.5 } 1.6 none).2 = none :=
  ⟨(c5_stabilizer_spec (defaultConfig false 0)
      { initState 0 with last_height := some 0.5 } 1 none).2.1 rfl 0.5 rfl
      (by with_unfolding_all decide),
    (c5_stabilizer_spec (defaultConfig false 0)
      { initState 0 with last_height := some 0.5 } 1.6 none).2.2 rfl
      (Or.inr (by with_unfolding_all decide))⟩

/-- C10: a grace-window hold tick (no observation, a previous position,
within `HAND_LOST_GRACE`) computes delta exactly 0, stores 0 in
`last_dy`, is treated as noise — direction, change count and
`last_motion_time` are untouched, no reversal and no activation is
emitted — and the tick can only leave 67 mode on if it already was on. -/
theorem c10_grace_hold (cfg : Config) (s : DetState) (i : Input) (p : ℚ)
    (hobs : i.obs = none) (hp : s.last_height = some p)
    (hg : i.now - s.last_seen_hands_time ≤ cfg.hand_lost_grace)
    (hthr : 0 ≤ cfg.movement_threshold) :
    tickDelta cfg s i = some 0 ∧
    (postMotion cfg s i).state.last_dy = 0 ∧
    (postMotion cfg s i).state.direction_changes = s.direction_changes ∧
    (postMotion cfg s i).state.last_direction = s.last_direction ∧
    (postMotion cfg s i).state.last_motion_time = s.last_motion_time ∧
    (tick cfg s i).2.reversal = false ∧
    (tick cfg s i).2.activated = false ∧
    ((tick cfg s i).1.party_mode = true → s.party_mode = true) := by
  have hs0 : ({ s with frame_count := s.frame_count + 1 } :
      DetState).last_height = some p := hp
  have hst := stabilize_none_held cfg
    { s with frame_count := s.frame_count + 1 } i.now p hs0 hg
  have htd : tickDelta cfg s i = some 0 := by
    simp only [tickDelta, hobs]
    rw [hst]
    simp [hp]
  have hn : ∀ d, tickDelta cfg s i = some d →
      |d| ≤ cfg.movement_threshold := by
    intro d hd
    rw [htd] at hd
    obtain rfl : (0 : ℚ) = d := Option.some.inj hd
    simpa using hthr
  have hpm := postMotion_noise cfg s i hn
  have hdy : (postMotion cfg s i).state.last_dy = 0 := by
    simp only [postMotion, hobs]
    rw [hst]
    exact (motion_last_dy cfg { s with frame_count := s.frame_count + 1 }
      i.now (some p) p p rfl hs0).trans (sub_self p)
  refine ⟨htd, hdy, hpm.2.2.1, hpm.2.2.2.1, hpm.2.2.2.2.1, ?_, ?_, ?_⟩
  · rw [tick_reversal]
    exact hpm.1
  · rw [tick_activated]
    exact hpm.2.1
  · intro hpt
    rw [tick_party_eq] at hpt
    by_cases hT : cfg.no_motion_timeout <
        i.now - (postMotion cfg s i).state.last_motion_time
    · rw [if_pos hT] at hpt
      cases hpt
    · rw [if_neg hT] at hpt
      rw [hpm.2.2.2.2.2.1] at hpt
      exact hpt

/-- Witness for C10 at a concrete grace-hold tick. -/
theorem c10_grace_hold_witness :
    tickDelta (defaultConfig false 0)
      { initState 0 with last_height := some 0.5 }
      ⟨0.3, none, Key.noKey⟩ = some 0 :=
  (c10_grace_hold (defaultConfig false 0)
    { initState 0 with last_height := some 0.5 }
    ⟨0.3, none, Key.noKey⟩ 0.5 rfl rfl (by with_unfolding_all decide)
    (by with_unfolding_all decide)).1

/-- C8: the change count never decreases on a tick whose idle timeout has
not elapsed; when the timeout elapses the count is reset to 0 and the mode
is off afterwards; a decrease therefore implies the timeout elapsed, and a
deactivation likewise happens only on a timeout tick. -/
theorem c8_count_monotone (cfg : Config) (s : DetState) (i : Input) :
    (¬ cfg.no_motion_timeout <
        i.now - (postMotion cfg s i).state.last_motion_time →
      s.direction_changes ≤ (tick cfg s i).1.direction_changes) ∧
    (cfg.no_motion_timeout <
        i.now - (postMotion cfg s i).state.last_motion_time →
      (tick cfg s i).1.direction_changes = 0 ∧
      (tick cfg s i).1.party_mode = false) ∧
    ((tick cfg s i).1.direction_changes < s.direction_changes →
      cfg.no_motion_timeout <
        i.now - (postMotion cfg s i).state.last_motion_time) ∧
    (s.party_mode = true → (tick cfg s i).1.party_mode = false →
      cfg.no_motion_timeout <
        i.now - (postMotion cfg s i).state.last_motion_time) := by
  have hmono : ¬ cfg.no_motion_timeout <
      i.now - (postMotion cfg s i).state.last_motion_time →
      s.direction_changes ≤ (tick cfg s i).1.direction_changes := by
    intro hT
    rw [tick_count_eq, if_neg hT]
    rcases hrev : (postMotion cfg s i).reversal with _ | _
    · rw [((postMotion_count_lmt cfg s i).2 hrev).1]
    · rw [((postMotion_count_lmt cfg s i).1 hrev).1]
      omega
  refine ⟨hmono, ?_, ?_, ?_⟩
  · intro hT
    rw [tick_count_eq, if_pos hT, tick_party_eq, if_pos hT]
    exact ⟨rfl, rfl⟩
  · intro hlt
    by_contra hT
    exact absurd (hmono hT) (not_le.mpr hlt)
  · intro hpm hoff
    by_contra hT
    rw [tick_party_eq, if_neg hT, postMotion_party, hpm] at hoff
    simp at hoff

/-- Witness for C8 at a concrete timeout tick starting from the initial
state. -/
theorem c8_count_monotone_witness :
    (tick (defaultConfig false 0) (initState 0)
      ⟨1, none, Key.noKey⟩).1.direction_changes = 0 ∧
    (tick (defaultConfig false 0) (initState 0)
      ⟨1, none, Key.noKey⟩).1.party_mode = false :=
  (c8_count_monotone (defaultConfig false 0) (initState 0)
    ⟨1, none, Key.noKey⟩).2.1 (by with_unfolding_all decide)

/-! ### Noise sequences (C6) -/

theorem noise_tick_preserves (cfg : Config) (s : DetState) (i : Input)
    (h : NoiseTick cfg s i) :
    (tick cfg s i).1.direction_changes = s.direction_changes ∧
    (tick cfg s i).1.last_direction = s.last_direction ∧
    (tick cfg s i).1.last_motion_time = s.last_motion_time := by
  have hpm := postMotion_noise cfg s i h.1
  have hT : ¬ cfg.no_motion_timeout <
      i.now - (postMotion cfg s i).state.last_motion_time := by
    rw [hpm.2.2.2.2.1]
    exact not_lt.mpr h.2
  rw [tick_count_eq, if_neg hT, tick_lastdir_eq, if_neg hT,
    tick_lmt_eq, if_neg hT]
  exact ⟨hpm.2.2.1, hpm.2.2.2.1, hpm.2.2.2.2.1⟩

/-- C6 counterexample: after one counted reversal, a single tick whose
delta 0.001 is below the threshold 0.0025 — but taken 0.7 s after the
last reversal — resets `direction_changes` from 1 to 0 and
`last_direction` from `up` to `none`: a noise-only continuation does not
leave them unchanged when it spans the idle timeout. -/
theorem c6_counterexample :
    (run noiseCfg (initState 0) noiseStart).direction_changes = 1 ∧
    (run noiseCfg (initState 0) noiseStart).last_direction =
      some Dir.up ∧
    tickDelta noiseCfg (run noiseCfg (initState 0) noiseStart)
      noiseLateTick = some (1/1000) ∧
    |(1/1000 : ℚ)| ≤ noiseCfg.movement_threshold ∧
    (tick noiseCfg (run noiseCfg (initState 0) noiseStart)
      noiseLateTick).1.direction_changes = 0 ∧
    (tick noiseCfg (run noiseCfg (initState 0) noiseStart)
      noiseLateTick).1.last_direction = none := by
  with_unfolding_all decide

/-- C6 as amended: a sequence of ticks whose computed deltas all stay at
or below the movement threshold leaves `last_direction`,
`direction_changes` and `last_motion_time` unchanged, provided the idle
timeout does not elapse at any tick of the sequence. -/
theorem c6_noise_frame (cfg : Config) (s : DetState)
    (inputs : List Input) (h : NoisyRun cfg s inputs) :
    (run cfg s inputs).direction_changes = s.direction_changes ∧
    (run cfg s inputs).last_direction = s.last_direction ∧
    (run cfg s inputs).last_motion_time = s.last_motion_time := by
  induction inputs generalizing s with
  | nil => exact ⟨rfl, rfl, rfl⟩
  | cons i rest ih =>
    obtain ⟨h1, h2⟩ := h
    have hp := noise_tick_preserves cfg s i h1
    have hr := ih (tick cfg s i).1 h2
    simp only [run]
    exact ⟨hr.1.trans hp.1, hr.2.1.trans hp.2.1, hr.2.2.trans hp.2.2⟩

/-- Witness for C6 as amended, on a one-tick noise run. -/
theorem c6_noise_frame_witness :
    (run (defaultConfig false 0) (initState 0)
      [⟨0.1, none, Key.noKey⟩]).direction_changes = 0 ∧
    (run (defaultConfig false 0) (initState 0)
      [⟨0.1, none, Key.noKey⟩]).last_direction = none := by
  have hyp : NoisyRun (defaultConfig false 0) (initState 0)
      [⟨0.1, none, Key.noKey⟩] := by
    simp only [NoisyRun, NoiseTick]
    refine ⟨⟨?_, by with_unfolding_all decide⟩, trivial⟩
    intro d hd
    rw [show tickDelta (defaultConfig false 0) (initState 0)
      ⟨0.1, none, Key.noKey⟩ = none from by with_unfolding_all rfl] at hd
    exact Option.noConfusion hd
  have h := c6_noise_frame (defaultConfig false 0) (initState 0)
    [⟨0.1, none, Key.noKey⟩] hyp
  exact ⟨h.1, h.2.1⟩

/-! ### The idle timer and sustained same-direction motion (C1) -/

/-- C1 counterexample: after activation at t = 0.5, the hand keeps moving
in the same direction with above-threshold deltas 0.03 every 0.1 s; at
t = 1.1 the tick still observes an above-threshold delta, yet the mode
switches off — above-threshold motion that is not a reversal does not
refresh `last_motion_time`, so sustained same-direction motion does not
keep the mode ACTIVE. -/
theorem c1_counterexample :
    (run c1cfg (initState 0) c1inputs).party_mode = true ∧
    tickDelta c1cfg (run c1cfg (initState 0) c1inputs) c1lastTick =
      some (3/100) ∧
    c1cfg.movement_threshold < |(3/100 : ℚ)| ∧
    (tick c1cfg (run c1cfg (initState 0) c1inputs)
      c1lastTick).2.reversal = false ∧
    (tick c1cfg (run c1cfg (initState 0) c1inputs)
      c1lastTick).1.party_mode = false ∧
    (tick c1cfg (run c1cfg (initState 0) c1inputs)
      c1lastTick).2.deactivated = true := by
  with_unfolding_all decide

/-- C1 as amended: while ACTIVE, the mode switches off exactly when
`now - last_motion_time > NO_MOTION_TIMEOUT`, where `last_motion_time`
is refreshed to `now` exactly on ticks that count a direction reversal
and is left unchanged by every other tick, including ticks with
above-threshold same-direction motion. -/
theorem c1_idle_timeout (cfg : Config) (s : DetState) (i : Input)
    (h : s.party_mode = true) :
    ((tick cfg s i).1.party_mode = false ↔
      cfg.no_motion_timeout <
        i.now - (postMotion cfg s i).state.last_motion_time) ∧
    ((tick cfg s i).2.reversal = true →
      (postMotion cfg s i).state.last_motion_time = i.now) ∧
    ((tick cfg s i).2.reversal = false →
      (postMotion cfg s i).state.last_motion_time =
        s.last_motion_time) := by
  refine ⟨?_, fun hr => ((postMotion_count_lmt cfg s i).1 hr).2,
    fun hr => ((postMotion_count_lmt cfg s i).2 hr).2⟩
  rw [tick_party_eq]
  have hparty : (postMotion cfg s i).state.party_mode = true := by
    rw [postMotion_party, h]
    simp
  constructor
  · intro hf
    by_cases hT : cfg.no_motion_timeout <
        i.now - (postMotion cfg s i).state.last_motion_time
    · exact hT
    · rw [if_neg hT, hparty] at hf
      cases hf
  · intro hT
    rw [if_pos hT]

/-- Witness for C1 as amended, at the counterexample's final tick. -/
theorem c1_idle_timeout_witness :
    ((tick c1cfg (run c1cfg (initState 0) c1inputs)
        c1lastTick).1.party_mode = false ↔
      c1cfg.no_motion_timeout <
        c1lastTick.now - (postMotion c1cfg
          (run c1cfg (initState 0) c1inputs)
          c1lastTick).state.last_motion_time) ∧
    ((tick c1cfg (run c1cfg (initState 0) c1inputs)
        c1lastTick).2.reversal = true →
      (postMotion c1cfg (run c1cfg (initState 0) c1inputs)
        c1lastTick).state.last_motion_time = c1lastTick.now) ∧
    ((tick c1cfg (run c1cfg (initState 0) c1inputs)
        c1lastTick).2.reversal = false →
      (postMotion c1cfg (run c1cfg (initState 0) c1inputs)
        c1lastTick).state.last_motion_time =
        (run c1cfg (initState 0) c1inputs).last_motion_time) :=
  c1_idle_timeout c1cfg (run c1cfg (initState 0) c1inputs) c1lastTick
    (by with_unfolding_all decide)

/-! ### The manual toggle (C2) -/

/-- C2 counterexample: with two reversals counted and the mode off,
pressing `m` starts the music but neither forces the mode to ACTIVE nor
clears the reversal count — the toggle acts on music playback, not on the
mode, and performs no classifier reset. -/
theorem c2_counterexample :
    (run c2cfg (initState 0) c2start).direction_changes = 2 ∧
    (run c2cfg (initState 0) c2start).party_mode = false ∧
    (run c2cfg (initState 0) c2start).music_busy = false ∧
    (tick c2cfg (run c2cfg (initState 0) c2start)
      c2toggleTick).1.direction_changes = 2 ∧
    (tick c2cfg (run c2cfg (initState 0) c2start)
      c2toggleTick).1.party_mode = false ∧
    (tick c2cfg (run c2cfg (initState 0) c2start)
      c2toggleTick).1.music_busy = true := by
  with_unfolding_all decide

/-- C2 as amended: the `m` key (enabled only while the music file is
loaded) toggles music playback; on every press it clears the popup
scheduler state (`popup_active`, popup windows) and sets
`music_start_time` to `none` when stopping and to the current time when
starting — but it leaves `party_mode` and `direction_changes` untouched,
and without a loaded music file the key does nothing. -/
theorem c2_manual_toggle (cfg : Config) (s : DetState) (now : ℚ)
    (key : Key) :
    (key = Key.keyM → cfg.music_loaded = true →
      (keyStep cfg s now key).party_mode = s.party_mode ∧
      (keyStep cfg s now key).direction_changes = s.direction_changes ∧
      (keyStep cfg s now key).popup_active = false ∧
      (keyStep cfg s now key).popup_windows = 0 ∧
      (keyStep cfg s now key).music_busy = !s.music_busy ∧
      (keyStep cfg s now key).music_start_time =
        (if s.music_busy = true then none else some now)) ∧
    (cfg.music_loaded = false → keyStep cfg s now key = s) ∧
    (key = Key.noKey → keyStep cfg s now key = s) := by
  refine ⟨?_, fun hl => keyStep_noLoad cfg s now key hl, ?_⟩
  · rintro rfl hl
    rw [keyStep_m cfg s now hl]
    rcases hb : s.music_busy with _ | _ <;> simp [hb]
  · rintro rfl
    unfold keyStep
    simp

/-- Witness for C2 as amended, at the counterexample's toggle tick. -/
theorem c2_manual_toggle_witness :
    (keyStep c2cfg (run c2cfg (initState 0) c2start) 0.35
      Key.keyM).direction_changes =
      (run c2cfg (initState 0) c2start).direction_changes ∧
    (keyStep c2cfg (run c2cfg (initState 0) c2start) 0.35
      Key.keyM).party_mode =
      (run c2cfg (initState 0) c2start).party_mode := by
  have h := (c2_manual_toggle c2cfg (run c2cfg (initState 0) c2start)
    0.35 Key.keyM).1 rfl rfl
  exact ⟨h.2.1, h.1⟩

/-! ### The trigger condition (C7) -/

/-- C7: on any reachable state (with a positive target and a
non-negative timeout, the configured defaults), a tick emits the
activation trigger exactly when the updated change count has reached
`DIRECTION_CHANGE_TARGET` while the mode is INACTIVE; the trigger
switches the mode on in that same tick, and no other path switches it
on. -/
theorem c7_trigger (cfg : Config) (s : DetState) (i : Input)
    (ht : 1 ≤ cfg.direction_change_target)
    (htm : 0 ≤ cfg.no_motion_timeout)
    (hs : Reachable cfg s) :
    ((tick cfg s i).2.activated = true ↔
      cfg.direction_change_target ≤
        (postMotion cfg s i).state.direction_changes ∧
      s.party_mode = false) ∧
    ((tick cfg s i).2.activated = true →
      (tick cfg s i).1.party_mode = true) ∧
    ((tick cfg s i).1.party_mode = true →
      s.party_mode = true ∨ (tick cfg s i).2.activated = true) := by
  have hinv := inv_reachable cfg s ht hs
  have hiff := postMotion_activated_iff cfg s i
  refine ⟨?_, ?_, ?_⟩
  · rw [tick_activated]
    constructor
    · intro ha
      obtain ⟨hrev, hc, hp⟩ := hiff.mp ha
      exact ⟨hc, hp⟩
    · rintro ⟨hc, hp⟩
      rcases hrev : (postMotion cfg s i).reversal with _ | _
      · have hcm := (postMotion_count_lmt cfg s i).2 hrev
        rw [hcm.1] at hc
        rw [hinv hc] at hp
        cases hp
      · exact hiff.mpr ⟨hrev, hc, hp⟩
  · intro ha
    rw [tick_activated] at ha
    have hrev := (hiff.mp ha).1
    have hlmt := ((postMotion_count_lmt cfg s i).1 hrev).2
    have hT : ¬ cfg.no_motion_timeout <
        i.now - (postMotion cfg s i).state.last_motion_time := by
      rw [hlmt, sub_self]
      exact not_lt.mpr htm
    rw [tick_party_eq, if_neg hT, postMotion_party, ha]
    simp
  · intro hp
    rw [tick_party_eq] at hp
    by_cases hT : cfg.no_motion_timeout <
        i.now - (postMotion cfg s i).state.last_motion_time
    · rw [if_pos hT] at hp
      cases hp
    · rw [if_neg hT, postMotion_party] at hp
      rw [tick_activated]
      exact (Bool.or_eq_true _ _).mp hp

/-- Witness for C7 at the initial state (reachable by the empty run). -/
theorem c7_trigger_witness :
    (tick (defaultConfig false 0) (initState 0)
        ⟨1, none, Key.noKey⟩).2.activated = true ↔
      (defaultConfig false 0).direction_change_target ≤
        (postMotion (defaultConfig false 0) (initState 0)
          ⟨1, none, Key.noKey⟩).state.direction_changes ∧
      (initState 0).party_mode = false :=
  (c7_trigger (defaultConfig false 0) (initState 0) ⟨1, none, Key.noKey⟩
    (by with_unfolding_all decide) (by with_unfolding_all decide)
    ⟨0, [], rfl⟩).1

/-! ### Missing music or missing gifs (C9) -/

theorem tick_mst_none (cfg : Config) (s : DetState) (i : Input)
    (hl : cfg.music_loaded = false) (hm : s.music_start_time = none) :
    (tick cfg s i).1.music_start_time = none ∧
    (tick cfg s i).2.popupStart = false := by
  have hmm : (postMotion cfg s i).state.music_start_time = none := by
    rcases hact : (postMotion cfg s i).activated with _ | _
    · rw [(postMotion_mst cfg s i).1 hact, hm]
    · rw [(postMotion_mst cfg s i).2 hact, hl]
      simp
  have hq1 : (idleCheck cfg (postMotion cfg s i).state
      i.now).1.music_start_time = none := by
    by_cases hT : cfg.no_motion_timeout <
        i.now - (postMotion cfg s i).state.last_motion_time
    · rw [idleCheck_pos cfg _ i.now hT]
    · rw [idleCheck_neg cfg _ i.now hT]
      exact hmm
  have hps : (popupStep cfg
      (idleCheck cfg (postMotion cfg s i).state i.now).1 i.now).2 =
      false := by
    rcases hf : (popupStep cfg
        (idleCheck cfg (postMotion cfg s i).state i.now).1 i.now).2
      with _ | _
    · rfl
    · obtain ⟨-, -, -, a, ha, -⟩ :=
        (popupStep_fires_iff cfg _ i.now).mp hf
      rw [hq1] at ha
      exact Option.noConfusion ha
  constructor
  · rw [tick_fst, keyStep_noLoad cfg _ i.now i.key hl,
      (shuffleStep_preserved cfg _ i.now).2.2.2.2.1,
      popupStep_neg cfg _ i.now hps, hq1]
  · rw [tick_popupStart]
    exact hps

theorem tick_no_gifs (cfg : Config) (s : DetState) (i : Input)
    (hg : cfg.num_popup_gifs = 0) :
    (tick cfg s i).2.popupStart = false := by
  rw [tick_popupStart]
  rcases hf : (popupStep cfg
      (idleCheck cfg (postMotion cfg s i).state i.now).1 i.now).2
    with _ | _
  · rfl
  · obtain ⟨-, -, hne, -⟩ := (popupStep_fires_iff cfg _ i.now).mp hf
    exact absurd hg hne

/-- C9: when the music failed to load, every run from the initial state
keeps `music_start_time` unset and never emits the popup-start event, no
matter how long the mode stays ACTIVE; and with no popup images loaded
the popup-start event likewise never fires. -/
theorem c9_no_music_no_popups (cfg : Config) (t0 : ℚ)
    (inputs : List Input) :
    (cfg.music_loaded = false →
      (run cfg (initState t0) inputs).music_start_time = none ∧
      ∀ e ∈ eventsOf cfg (initState t0) inputs, e.popupStart = false) ∧
    (cfg.num_popup_gifs = 0 →
      ∀ e ∈ eventsOf cfg (initState t0) inputs,
        e.popupStart = false) := by
  constructor
  · intro hl
    have main : ∀ (l : List Input) (s : DetState),
        s.music_start_time = none →
        (run cfg s l).music_start_time = none ∧
        ∀ e ∈ eventsOf cfg s l, e.popupStart = false := by
      intro l
      induction l with
      | nil =>
        intro s hm
        exact ⟨hm, by simp [eventsOf]⟩
      | cons i rest ih =>
        intro s hm
        have hstep := tick_mst_none cfg s i hl hm
        have hr := ih (tick cfg s i).1 hstep.1
        refine ⟨by simpa [run] using hr.1, ?_⟩
        intro e he
        simp only [eventsOf, List.mem_cons] at he
        rcases he with rfl | he
        · exact hstep.2
        · exact hr.2 e he
    exact main inputs (initState t0) rfl
  · intro hg
    have main : ∀ (l : List Input) (s : DetState),
        ∀ e ∈ eventsOf cfg s l, e.popupStart = false := by
      intro l
      induction l with
      | nil =>
        intro s e he
        simp [eventsOf] at he
      | cons i rest ih =>
        intro s e he
        simp only [eventsOf, List.mem_cons] at he
        rcases he with rfl | he
        · exact tick_no_gifs cfg s i hg
        · exact ih (tick cfg s i).1 e he
    exact main inputs (initState t0)

/-- Witness for C9 on a short run without loaded music. -/
theorem c9_no_music_no_popups_witness :
    (run (defaultConfig false 0) (initState 0)
      [mkIn 1 0.5]).music_start_time = none ∧
    ∀ e ∈ eventsOf (defaultConfig false 0) (initState 0) [mkIn 1 0.5],
      e.popupStart = false :=
  (c9_no_music_no_popups (defaultConfig false 0) 0 [mkIn 1 0.5]).1 rfl

/-! ### The delayed-popup scheduler (C4) -/

/-- C4 counterexample: a full activation period (activation at t = 2.5,
popup start at t = 7.5, a shuffle at t = 8) is ended by the idle timeout
at t = 8.6; the deactivation clears the activation time, the popup flag
and the windows, but the shuffle timer is not cleared — it still reads 8
after the period has ended, refuting "on deactivation all scheduler
state (activation time, shuffle timer) is cleared". -/
theorem c4_counterexample :
    (eventsOf c4cfg (initState 0) c4inputs).map Events.popupStart =
      List.replicate 15 false ++ [true, false, false] ∧
    (run c4cfg (initState 0) c4inputs).party_mode = false ∧
    (run c4cfg (initState 0) c4inputs).music_start_time = none ∧
    (run c4cfg (initState 0) c4inputs).popup_active = false ∧
    (run c4cfg (initState 0) c4inputs).popup_windows = 0 ∧
    (run c4cfg (initState 0) c4inputs).popup_last_shuffle_time = 8 := by
  with_unfolding_all decide

/-- C4 as amended: the popup-start event fires exactly on a tick where
the mode is ACTIVE, popups are not yet active, gifs are loaded and
`now - music_start_time ≥ POPUP_DELAY_SECONDS`; firing marks popups
active (so it cannot fire again before a reset) and seeds the shuffle
timer with the current time; deactivation clears the activation time,
the popup flag and the windows but leaves the shuffle-timer value in
place (it is only re-seeded at the next popup start); and an activation
records the activating tick's time as the period's own
`music_start_time` (when music is loaded), so a second period's popup
delay is measured from that period's own activation. -/
theorem c4_scheduler (cfg : Config) (s : DetState) (i : Input) :
    ((popupStep cfg s i.now).2 = true ↔
      s.party_mode = true ∧ s.popup_active = false ∧
      cfg.num_popup_gifs ≠ 0 ∧
      ∃ a, s.music_start_time = some a ∧
        cfg.popup_delay_seconds ≤ i.now - a) ∧
    ((popupStep cfg s i.now).2 = true →
      (popupStep cfg s i.now).1.popup_active = true ∧
      (popupStep cfg s i.now).1.popup_last_shuffle_time = i.now ∧
      (popupStep cfg s i.now).1.music_start_time =
        s.music_start_time) ∧
    (cfg.no_motion_timeout < i.now - s.last_motion_time →
      (idleCheck cfg s i.now).1.music_start_time = none ∧
      (idleCheck cfg s i.now).1.popup_active = false ∧
      (idleCheck cfg s i.now).1.popup_windows = 0 ∧
      (idleCheck cfg s i.now).1.popup_last_shuffle_time =
        s.popup_last_shuffle_time) ∧
    ((tick cfg s i).2.activated = true → cfg.music_loaded = true →
      (postMotion cfg s i).state.music_start_time = some i.now) := by
  refine ⟨popupStep_fires_iff cfg s i.now, ?_, ?_, ?_⟩
  · intro hf
    rw [popupStep_pos cfg s i.now hf]
    exact ⟨rfl, rfl, rfl⟩
  · intro hT
    rw [idleCheck_pos cfg s i.now hT]
    exact ⟨rfl, rfl, rfl, rfl⟩
  · intro ha hl
    rw [tick_activated] at ha
    rw [(postMotion_mst cfg s i).2 ha, if_pos hl]

/-- Witness for C4 at a concrete timeout tick. -/
theorem c4_scheduler_witness :
    (idleCheck (defaultConfig true 1) (initState 0)
      (1 : ℚ)).1.music_start_time = none ∧
    (idleCheck (defaultConfig true 1) (initState 0)
      (1 : ℚ)).1.popup_active = false ∧
    (idleCheck (defaultConfig true 1) (initState 0)
      (1 : ℚ)).1.popup_windows = 0 ∧
    (idleCheck (defaultConfig true 1) (initState 0)
      (1 : ℚ)).1.popup_last_shuffle_time =
      (initState 0).popup_last_shuffle_time :=
  (c4_scheduler (defaultConfig true 1) (initState 0)
    ⟨1, none, Key.noKey⟩).2.2.1 (by with_unfolding_all decide)

/-! ### The reference reversal-counting trace (C3) -/

/-- C3 counterexample: after the 5th sample of the spec's sequence the
change count is 3, not 4, and no trigger has fired yet — six samples
yield five deltas, of which the first only sets the initial direction. -/
theorem c3_counterexample :
    (run c3cfg (initState 0) (c3inputs.take 5)).direction_changes = 3 ∧
    (eventsOf c3cfg (initState 0) (c3inputs.take 5)).map
      Events.activated = List.replicate 5 false := by
  with_unfolding_all decide

/-- C3 as amended: with `movement_threshold = 0.0025` the sequence
[0.5, 0.52, 0.48, 0.52, 0.48, 0.52] produces deltas
0.02 / −0.04 / 0.04 / −0.04 / 0.04, all above threshold; the first delta
sets the initial direction and the remaining four are reversals, so
`direction_changes` reaches 4 after the 6th sample and the trigger fires
exactly once, on that tick. -/
theorem c3_reversal_counting :
    (run c3cfg (initState 0) c3inputs).direction_changes = 4 ∧
    (run c3cfg (initState 0) c3inputs).party_mode = true ∧
    (eventsOf c3cfg (initState 0) c3inputs).map Events.activated =
      [false, false, false, false, false, true] := by
  with_unfolding_all decide

end SixtySeven
